import Mathlib

/-!
Shallow embedding of the browser-side layer of the CandidateTracker admin
dashboard: the job-status polling loop, the candidate/program delete
workflows, the dashboard renderer and the programs-table renderer.
Each handler is modelled as a pure function from its inputs (parsed JSON
payloads, response outcomes, relevant DOM state) to the list of observable
effects it performs, in source order.
-/

/-- Per-row processing info in a job-status payload:
`rows: \x7bindex: \x7bgenerated, status, message\x7d\x7d`. -/
structure RowInfo where
  generated : Bool
  status : String
  message : Option String
  deriving DecidableEq

/-- A job-status payload `\x7btotal, processed, rows, finished\x7d`.
`total` and `processed` are optional: the handler applies `|| 0`. -/
structure StatusPayload where
  total : Option Nat
  processed : Option Nat
  rows : List (String × RowInfo)
  finished : Bool
  deriving DecidableEq

/-- Outcome of one poll attempt: the fetch (or JSON parse) threw, the
response had a non-OK HTTP status, or it was OK with a parsed payload. -/
inductive PollOutcome where
  | transportError
  | httpError
  | ok (payload : StatusPayload)
  deriving DecidableEq

/-- Observable effects of one execution of `pollStatus`. -/
inductive PollEffect where
  | setProgress (percent : Int)
  | redrawRows (rows : List (String × RowInfo))
  | schedule (delayMs : Nat)
  | enableControls
  | notifyUser (msg : String)
  | logError
  deriving DecidableEq

/-- JavaScript `Math.round`: round half toward positive infinity. -/
def jsRound (q : ℚ) : Int := Int.floor (q + 1 / 2)

/-- The progress computation of `pollStatus`:
`const total = payload.total || 0; const processed = payload.processed || 0;`
`const percent = total ? Math.round((processed / total) * 100) : 0;` -/
def percentOf (p : StatusPayload) : Int :=
  let total := p.total.getD 0
  let processed := p.processed.getD 0
  if total ≠ 0 then jsRound (((processed : ℚ) / (total : ℚ)) * 100) else 0

/-- The completion alert text of `pollStatus`. -/
def jobFinishedMsg : String :=
  "Job finished. Review the status table and download logs if needed."

/-- One execution of `pollStatus` (src/unnamed/part_001 lines 144-179) as a
function from the poll outcome to the effects performed, in source order.
A non-OK status logs and returns; an OK response updates progress and the
row table, then either schedules the next poll after 1.5s or, when
finished, re-enables the two buttons and alerts; a thrown error logs and
schedules the next poll after 3s. -/
def pollStep : PollOutcome → List PollEffect
  | PollOutcome.httpError => [PollEffect.logError]
  | PollOutcome.transportError => [PollEffect.logError, PollEffect.schedule 3000]
  | PollOutcome.ok p =>
      PollEffect.setProgress (percentOf p) :: PollEffect.redrawRows p.rows ::
      (if p.finished = false then [PollEffect.schedule 1500]
       else [PollEffect.enableControls, PollEffect.notifyUser jobFinishedMsg])

/-- Recognizer for scheduling effects, used to count scheduled polls. -/
def isSchedule : PollEffect → Bool
  | PollEffect.schedule _ => true
  | _ => false

/-- A sample unfinished payload used by witnesses. -/
def samplePayloadUnfinished : StatusPayload :=
  { total := some 4, processed := some 1, rows := [], finished := false }

/-- A sample finished payload used by witnesses. -/
def samplePayloadFinished : StatusPayload :=
  { total := some 4, processed := some 4, rows := [], finished := true }

/-- C1: an OK poll response with finished=false schedules exactly one
further poll, after 1500 ms; a transport failure schedules exactly one
further poll, after 3000 ms; an OK response with finished=true schedules
no further poll, re-enables the generate and preview-only controls, and
notifies the user. -/
theorem C1_poll_scheduling (p : StatusPayload) :
    (p.finished = false →
      (pollStep (PollOutcome.ok p)).countP isSchedule = 1 ∧
      PollEffect.schedule 1500 ∈ pollStep (PollOutcome.ok p)) ∧
    ((pollStep PollOutcome.transportError).countP isSchedule = 1 ∧
      PollEffect.schedule 3000 ∈ pollStep PollOutcome.transportError) ∧
    (p.finished = true →
      (pollStep (PollOutcome.ok p)).countP isSchedule = 0 ∧
      PollEffect.enableControls ∈ pollStep (PollOutcome.ok p) ∧
      PollEffect.notifyUser jobFinishedMsg ∈ pollStep (PollOutcome.ok p)) := by
  refine ⟨?_, ?_, ?_⟩
  · intro h
    simp [pollStep, h, List.countP_cons, List.countP_nil, isSchedule]
  · constructor <;> simp [pollStep, List.countP_cons, List.countP_nil, isSchedule]
  · intro h
    simp [pollStep, h, List.countP_cons, List.countP_nil, isSchedule]

/-- C1 witness: the theorem applied to concrete finished and unfinished
payloads, with the hypotheses discharged by evaluation. -/
theorem C1_poll_scheduling_witness :
    (samplePayloadUnfinished.finished = false ∧
      (pollStep (PollOutcome.ok samplePayloadUnfinished)).countP isSchedule = 1 ∧
      PollEffect.schedule 1500 ∈ pollStep (PollOutcome.ok samplePayloadUnfinished)) ∧
    (samplePayloadFinished.finished = true ∧
      (pollStep (PollOutcome.ok samplePayloadFinished)).countP isSchedule = 0 ∧
      PollEffect.enableControls ∈ pollStep (PollOutcome.ok samplePayloadFinished) ∧
      PollEffect.notifyUser jobFinishedMsg ∈ pollStep (PollOutcome.ok samplePayloadFinished)) :=
  ⟨⟨rfl, (C1_poll_scheduling samplePayloadUnfinished).1 rfl⟩,
   ⟨rfl, (C1_poll_scheduling samplePayloadFinished).2.2 rfl⟩⟩

/-- C2 counterexample: a poll attempt that fails with a non-OK HTTP status
schedules no further poll at all, so it is not handled identically to a
transport failure and the loop can terminate while the job is unfinished. -/
theorem C2_counterexample :
    PollEffect.schedule 3000 ∉ pollStep PollOutcome.httpError ∧
    (pollStep PollOutcome.httpError).countP isSchedule = 0 := by
  decide

/-- C2 amended: a transport failure schedules exactly one further poll
after the 3000 ms failure delay, but a non-OK HTTP status only logs the
error and schedules no further poll, terminating the loop. -/
theorem C2_amended_poll_failure :
    ((pollStep PollOutcome.transportError).countP isSchedule = 1 ∧
      PollEffect.schedule 3000 ∈ pollStep PollOutcome.transportError) ∧
    ((pollStep PollOutcome.httpError).countP isSchedule = 0 ∧
      PollEffect.logError ∈ pollStep PollOutcome.httpError) := by
  decide

/-- C3: for every OK poll payload, the progress percent pushed to the bar
equals round((processed/total)*100) when the defaulted total is non-zero,
and equals 0 when total is 0 or absent, so the total=0 case never divides. -/
theorem C3_percent_no_div_by_zero (p : StatusPayload) :
    PollEffect.setProgress (percentOf p) ∈ pollStep (PollOutcome.ok p) ∧
    (p.total.getD 0 ≠ 0 →
      percentOf p =
        jsRound (((p.processed.getD 0 : ℚ) / (p.total.getD 0 : ℚ)) * 100)) ∧
    (p.total.getD 0 = 0 → percentOf p = 0) := by
  refine ⟨?_, ?_, ?_⟩
  · simp [pollStep]
  · intro h
    simp [percentOf, h]
  · intro h
    simp [percentOf, h]

/-- C3 witness: the theorem applied to payloads with total 4 and with
total absent, the hypotheses and percent values checked by evaluation. -/
theorem C3_percent_no_div_by_zero_witness :
    (samplePayloadUnfinished.total.getD 0 ≠ 0 ∧
      percentOf samplePayloadUnfinished =
        jsRound (((samplePayloadUnfinished.processed.getD 0 : ℚ) /
          (samplePayloadUnfinished.total.getD 0 : ℚ)) * 100) ∧
      percentOf samplePayloadUnfinished = 25) ∧
    ((StatusPayload.mk none none [] false).total.getD 0 = 0 ∧
      percentOf (StatusPayload.mk none none [] false) = 0) :=
  ⟨⟨by decide,
    (C3_percent_no_div_by_zero samplePayloadUnfinished).2.1 (by decide),
    by norm_num [percentOf, samplePayloadUnfinished, jsRound]⟩,
   ⟨rfl, (C3_percent_no_div_by_zero (StatusPayload.mk none none [] false)).2.2 rfl⟩⟩

/-- The JSON body of a POST to the candidate-delete endpoint:
`\x7bcandidate_id, program\x7d`. -/
structure DeleteRequest where
  url : String
  httpMethod : String
  candidate_id : String
  program : String
  deriving DecidableEq

/-- Outcome of a delete request: the fetch threw, the response had a
non-OK status (the handler then throws into the catch), or a 200 response
parsed to `\x7bsuccess, error?\x7d`. -/
inductive DeleteResponse where
  | transportError
  | httpError
  | ok (success : Bool) (error : String)
  deriving DecidableEq

/-- Observable effects of the two `deleteCandidate` handlers. -/
inductive CandEffect where
  | post (req : DeleteRequest)
  | refetchCandidates
  | refetchProgramCandidates (program : String)
  | refetchPrograms
  | alertMsg (msg : String)
  | logError
  deriving DecidableEq

namespace CandidatesPage

/-- The `deleteCandidate` of the candidates page
(src/unnamed/part_000 lines 129-158): one POST to /api/candidates/delete
with body candidate_id and program; on success re-fetch the candidate
list via loadCandidatesData; on success=false alert the payload error;
on a thrown or non-OK response log and alert a fixed message. -/
def deleteCandidate (candidateId program : String) (resp : DeleteResponse) :
    List CandEffect :=
  CandEffect.post ⟨"/api/candidates/delete", "POST", candidateId, program⟩ ::
  match resp with
  | DeleteResponse.transportError =>
      [CandEffect.logError,
       CandEffect.alertMsg "Error deleting candidate. Please try again."]
  | DeleteResponse.httpError =>
      [CandEffect.logError,
       CandEffect.alertMsg "Error deleting candidate. Please try again."]
  | DeleteResponse.ok true _ => [CandEffect.refetchCandidates]
  | DeleteResponse.ok false e => [CandEffect.alertMsg ("Error: " ++ e)]

end CandidatesPage

namespace ProgramsPage

/-- The `deleteCandidate` of the programs page
(src/static/js/programs.js lines 237-269): one POST to
/api/candidates/delete with body candidate_id and program; on success
re-fetch the program candidate list and the program list; on
success=false alert the payload error; on a thrown or non-OK response
log and alert a fixed message. -/
def deleteCandidate (candidateId program : String) (resp : DeleteResponse) :
    List CandEffect :=
  CandEffect.post ⟨"/api/candidates/delete", "POST", candidateId, program⟩ ::
  match resp with
  | DeleteResponse.transportError =>
      [CandEffect.logError,
       CandEffect.alertMsg "Error deleting candidate. Please try again."]
  | DeleteResponse.httpError =>
      [CandEffect.logError,
       CandEffect.alertMsg "Error deleting candidate. Please try again."]
  | DeleteResponse.ok true _ =>
      [CandEffect.refetchProgramCandidates program, CandEffect.refetchPrograms]
  | DeleteResponse.ok false e => [CandEffect.alertMsg ("Error: " ++ e)]

end ProgramsPage

/-- Recognizer for the POST effect of the delete workflows. -/
def isPost : CandEffect → Bool
  | CandEffect.post _ => true
  | _ => false

/-- Recognizer for the candidate-list re-fetch effect. -/
def isRefetchCandidates : CandEffect → Bool
  | CandEffect.refetchCandidates => true
  | _ => false

/-- Recognizer for the per-program candidate-list re-fetch effect. -/
def isRefetchProgramCandidates : CandEffect → Bool
  | CandEffect.refetchProgramCandidates _ => true
  | _ => false

/-- Recognizer for the program-list re-fetch effect. -/
def isRefetchPrograms : CandEffect → Bool
  | CandEffect.refetchPrograms => true
  | _ => false

/-- Recognizer for any view re-fetch effect of the delete workflows. -/
def isAnyRefetch : CandEffect → Bool
  | CandEffect.refetchCandidates => true
  | CandEffect.refetchProgramCandidates _ => true
  | CandEffect.refetchPrograms => true
  | _ => false

/-- A delete attempt fails when it is not a 200 response with success=true. -/
def isFailedDelete : DeleteResponse → Bool
  | DeleteResponse.ok true _ => false
  | _ => true

/-- C4: on both pages, confirming a candidate delete issues exactly one
POST to /api/candidates/delete whose body holds exactly the candidate id
and program, and an OK response with success=true triggers exactly one
re-fetch of the candidate list, plus, on the programs page, exactly one
re-fetch of the program list. -/
theorem C4_delete_candidate (cid prog : String) (resp : DeleteResponse) :
    ((CandidatesPage.deleteCandidate cid prog resp).countP isPost = 1 ∧
      CandEffect.post ⟨"/api/candidates/delete", "POST", cid, prog⟩ ∈
        CandidatesPage.deleteCandidate cid prog resp) ∧
    ((ProgramsPage.deleteCandidate cid prog resp).countP isPost = 1 ∧
      CandEffect.post ⟨"/api/candidates/delete", "POST", cid, prog⟩ ∈
        ProgramsPage.deleteCandidate cid prog resp) ∧
    (∀ e, resp = DeleteResponse.ok true e →
      (CandidatesPage.deleteCandidate cid prog resp).countP isRefetchCandidates = 1 ∧
      (ProgramsPage.deleteCandidate cid prog resp).countP isRefetchProgramCandidates = 1 ∧
      (ProgramsPage.deleteCandidate cid prog resp).countP isRefetchPrograms = 1) := by
  refine ⟨⟨?_, ?_⟩, ⟨?_, ?_⟩, ?_⟩ <;>
    cases resp with
    | transportError =>
        simp [CandidatesPage.deleteCandidate, ProgramsPage.deleteCandidate,
          List.countP_cons, List.countP_nil, isPost]
    | httpError =>
        simp [CandidatesPage.deleteCandidate, ProgramsPage.deleteCandidate,
          List.countP_cons, List.countP_nil, isPost]
    | ok s e =>
        cases s <;>
        simp [CandidatesPage.deleteCandidate, ProgramsPage.deleteCandidate,
          List.countP_cons, List.countP_nil, isPost, isRefetchCandidates,
          isRefetchProgramCandidates, isRefetchPrograms]

/-- C4 witness: the theorem applied to candidate id 123 in program Alpha
with a successful response, hypotheses discharged by evaluation. -/
theorem C4_delete_candidate_witness :
    ((CandidatesPage.deleteCandidate "123" "Alpha"
        (DeleteResponse.ok true "")).countP isPost = 1 ∧
      CandEffect.post ⟨"/api/candidates/delete", "POST", "123", "Alpha"⟩ ∈
        CandidatesPage.deleteCandidate "123" "Alpha" (DeleteResponse.ok true "")) ∧
    ((ProgramsPage.deleteCandidate "123" "Alpha"
        (DeleteResponse.ok true "")).countP isPost = 1 ∧
      CandEffect.post ⟨"/api/candidates/delete", "POST", "123", "Alpha"⟩ ∈
        ProgramsPage.deleteCandidate "123" "Alpha" (DeleteResponse.ok true "")) ∧
    ((CandidatesPage.deleteCandidate "123" "Alpha"
        (DeleteResponse.ok true "")).countP isRefetchCandidates = 1 ∧
      (ProgramsPage.deleteCandidate "123" "Alpha"
        (DeleteResponse.ok true "")).countP isRefetchProgramCandidates = 1 ∧
      (ProgramsPage.deleteCandidate "123" "Alpha"
        (DeleteResponse.ok true "")).countP isRefetchPrograms = 1) :=
  ⟨(C4_delete_candidate "123" "Alpha" (DeleteResponse.ok true "")).1,
   (C4_delete_candidate "123" "Alpha" (DeleteResponse.ok true "")).2.1,
   (C4_delete_candidate "123" "Alpha" (DeleteResponse.ok true "")).2.2 "" rfl⟩

/-- C5: every failed delete attempt, on either page, surfaces an alert
and performs no re-fetch of any view. -/
theorem C5_failed_delete_no_refetch (cid prog : String) (resp : DeleteResponse)
    (h : isFailedDelete resp = true) :
    ((∃ m, CandEffect.alertMsg m ∈ CandidatesPage.deleteCandidate cid prog resp) ∧
      (CandidatesPage.deleteCandidate cid prog resp).countP isAnyRefetch = 0) ∧
    ((∃ m, CandEffect.alertMsg m ∈ ProgramsPage.deleteCandidate cid prog resp) ∧
      (ProgramsPage.deleteCandidate cid prog resp).countP isAnyRefetch = 0) := by
  cases resp with
  | transportError =>
      refine ⟨⟨⟨"Error deleting candidate. Please try again.", ?_⟩, ?_⟩,
        ⟨"Error deleting candidate. Please try again.", ?_⟩, ?_⟩ <;>
      simp [CandidatesPage.deleteCandidate, ProgramsPage.deleteCandidate,
        List.countP_cons, List.countP_nil, isAnyRefetch]
  | httpError =>
      refine ⟨⟨⟨"Error deleting candidate. Please try again.", ?_⟩, ?_⟩,
        ⟨"Error deleting candidate. Please try again.", ?_⟩, ?_⟩ <;>
      simp [CandidatesPage.deleteCandidate, ProgramsPage.deleteCandidate,
        List.countP_cons, List.countP_nil, isAnyRefetch]
  | ok s e =>
      cases s with
      | false =>
          refine ⟨⟨⟨"Error: " ++ e, ?_⟩, ?_⟩, ⟨"Error: " ++ e, ?_⟩, ?_⟩ <;>
          simp [CandidatesPage.deleteCandidate, ProgramsPage.deleteCandidate,
            List.countP_cons, List.countP_nil, isAnyRefetch]
      | true => simp [isFailedDelete] at h

/-- C5 witness: the theorem applied to a success=false response at a
concrete candidate, with the failure hypothesis checked by evaluation. -/
theorem C5_failed_delete_no_refetch_witness :
    isFailedDelete (DeleteResponse.ok false "no such candidate") = true ∧
    (((∃ m, CandEffect.alertMsg m ∈
        CandidatesPage.deleteCandidate "123" "Alpha"
          (DeleteResponse.ok false "no such candidate")) ∧
      (CandidatesPage.deleteCandidate "123" "Alpha"
        (DeleteResponse.ok false "no such candidate")).countP isAnyRefetch = 0) ∧
    ((∃ m, CandEffect.alertMsg m ∈
        ProgramsPage.deleteCandidate "123" "Alpha"
          (DeleteResponse.ok false "no such candidate")) ∧
      (ProgramsPage.deleteCandidate "123" "Alpha"
        (DeleteResponse.ok false "no such candidate")).countP isAnyRefetch = 0)) :=
  ⟨rfl, C5_failed_delete_no_refetch "123" "Alpha"
    (DeleteResponse.ok false "no such candidate") rfl⟩

/-- Outcome of a program-delete request: thrown fetch, non-OK status, or
a 200 response parsed to `\x7bsuccess, message?, error?\x7d`. -/
inductive ProgDeleteResponse where
  | transportError
  | httpError
  | ok (success : Bool) (message : String) (error : String)
  deriving DecidableEq

/-- Observable effects of `deleteProgram`. -/
inductive ProgEffect where
  | post (url : String) (program_name : String)
  | alertMsg (msg : String)
  | refetchPrograms
  | hideDetailPanel
  | logError
  deriving DecidableEq

/-- The `deleteProgram` handler (src/static/js/programs.js lines 274-311):
one POST to /api/programs/delete with the program name; on success alert
the server message, re-fetch the program list, and hide the detail panel
exactly when its selected-program-name text equals the deleted name; on
success=false alert the payload error; on a thrown or non-OK response log
and alert a fixed message. `selectedProgramName` is the text content of
the selected-program-name element at handling time. -/
def deleteProgram (programName selectedProgramName : String)
    (resp : ProgDeleteResponse) : List ProgEffect :=
  ProgEffect.post "/api/programs/delete" programName ::
  match resp with
  | ProgDeleteResponse.transportError =>
      [ProgEffect.logError,
       ProgEffect.alertMsg "Error deleting program. Please try again."]
  | ProgDeleteResponse.httpError =>
      [ProgEffect.logError,
       ProgEffect.alertMsg "Error deleting program. Please try again."]
  | ProgDeleteResponse.ok true msg _ =>
      [ProgEffect.alertMsg msg, ProgEffect.refetchPrograms] ++
      (if selectedProgramName = programName then [ProgEffect.hideDetailPanel] else [])
  | ProgDeleteResponse.ok false _ e => [ProgEffect.alertMsg ("Error: " ++ e)]

/-- C6: a successful program deletion alerts exactly the server-supplied
message, re-fetches the program list, and hides the program-detail panel
if and only if the currently selected program name equals the deleted
name. -/
theorem C6_delete_program (programName selectedProgramName msg e : String) :
    ProgEffect.alertMsg msg ∈
      deleteProgram programName selectedProgramName
        (ProgDeleteResponse.ok true msg e) ∧
    ProgEffect.refetchPrograms ∈
      deleteProgram programName selectedProgramName
        (ProgDeleteResponse.ok true msg e) ∧
    (ProgEffect.hideDetailPanel ∈
        deleteProgram programName selectedProgramName
          (ProgDeleteResponse.ok true msg e) ↔
      selectedProgramName = programName) := by
  refine ⟨?_, ?_, ?_⟩
  · simp [deleteProgram]
  · by_cases h : selectedProgramName = programName <;> simp [deleteProgram, h]
  · by_cases h : selectedProgramName = programName <;> simp [deleteProgram, h]

/-- Dashboard metrics fields used by the rendering claims. -/
structure Metrics where
  total_candidates : Int
  female_count : Int
  male_count : Int
  pwd_count : Int
  deriving DecidableEq

/-- The gender pie chart dataset (src/static/js/dashboard.js line 293):
`data: [data.female_count, data.male_count - data.female_count]`. -/
def genderChartData (d : Metrics) : List Int :=
  [d.female_count, d.male_count - d.female_count]

/-- The PWD pie chart dataset (src/static/js/dashboard.js line 339):
`data: [data.pwd_count, data.total_candidates - data.pwd_count]`. -/
def pwdChartData (d : Metrics) : List Int :=
  [d.pwd_count, d.total_candidates - d.pwd_count]

/-- What `updateGenderChart` does with the computed dataset: update the
existing chart in place when the module-level handle is set, otherwise
construct a new chart. Both branches use the same dataset. -/
inductive GenderChartAction where
  | updateInPlace (slices : List Int)
  | createNew (slices : List Int)
  deriving DecidableEq

/-- The `updateGenderChart` handler (src/static/js/dashboard.js lines
286-328): builds the dataset from female_count and the difference
male_count minus female_count, then updates the chart if one exists and
creates it otherwise. -/
def updateGenderChart (chartExists : Bool) (d : Metrics) : GenderChartAction :=
  if chartExists then GenderChartAction.updateInPlace (genderChartData d)
  else GenderChartAction.createNew (genderChartData d)

/-- The dataset carried by a gender-chart action. -/
def GenderChartAction.slices : GenderChartAction → List Int
  | GenderChartAction.updateInPlace s => s
  | GenderChartAction.createNew s => s

/-- Observable effects of the dashboard success handler. -/
inductive DashEffect where
  | hideLoading
  | showContent
  | showNoData
  | hideNoData
  | updateCards (d : Metrics)
  | genderChart (act : GenderChartAction)
  | pwdChart (slices : List Int)
  | raceChart (d : Metrics)
  | programChart (d : Metrics)
  | institutionChart (d : Metrics)
  | logError
  deriving DecidableEq

/-- The `updateCharts` helper (src/static/js/dashboard.js lines 112-118):
updates the gender, PWD, race, program and institution charts. -/
def updateCharts (chartExists : Bool) (d : Metrics) : List DashEffect :=
  [DashEffect.genderChart (updateGenderChart chartExists d),
   DashEffect.pwdChart (pwdChartData d),
   DashEffect.raceChart d, DashEffect.programChart d,
   DashEffect.institutionChart d]

/-- The success branch of `loadDashboardData` (src/static/js/dashboard.js
lines 23-41): hide loading, show content; when total_candidates is 0 show
the no-data message and return; otherwise hide the no-data message and
update the metrics cards and all charts. -/
def loadDashboardRender (chartExists : Bool) (d : Metrics) : List DashEffect :=
  DashEffect.hideLoading :: DashEffect.showContent ::
  (if d.total_candidates = 0 then [DashEffect.showNoData]
   else DashEffect.hideNoData :: DashEffect.updateCards d ::
     updateCharts chartExists d)

/-- Recognizer for any chart or metrics-card update effect. -/
def isChartOrCard : DashEffect → Bool
  | DashEffect.updateCards _ => true
  | DashEffect.genderChart _ => true
  | DashEffect.pwdChart _ => true
  | DashEffect.raceChart _ => true
  | DashEffect.programChart _ => true
  | DashEffect.institutionChart _ => true
  | _ => false

/-- C7: a metrics payload with total_candidates = 0 shows the no-data
message and constructs or updates no chart and no metrics card; a payload
with total_candidates not 0 hides the no-data message and updates the
cards and every chart. -/
theorem C7_dashboard_no_data (chartExists : Bool) (d : Metrics) :
    (d.total_candidates = 0 →
      DashEffect.showNoData ∈ loadDashboardRender chartExists d ∧
      (loadDashboardRender chartExists d).countP isChartOrCard = 0) ∧
    (d.total_candidates ≠ 0 →
      DashEffect.hideNoData ∈ loadDashboardRender chartExists d ∧
      DashEffect.updateCards d ∈ loadDashboardRender chartExists d ∧
      (loadDashboardRender chartExists d).countP isChartOrCard = 6) := by
  constructor
  · intro h
    simp [loadDashboardRender, h, List.countP_cons, List.countP_nil, isChartOrCard]
  · intro h
    simp [loadDashboardRender, updateCharts, h, List.countP_cons,
      List.countP_nil, isChartOrCard]

/-- C7 witness: the theorem applied to an empty payload and a non-empty
payload, hypotheses discharged by evaluation. -/
theorem C7_dashboard_no_data_witness :
    ((Metrics.mk 0 0 0 0).total_candidates = 0 ∧
      DashEffect.showNoData ∈ loadDashboardRender false (Metrics.mk 0 0 0 0) ∧
      (loadDashboardRender false (Metrics.mk 0 0 0 0)).countP isChartOrCard = 0) ∧
    ((Metrics.mk 10 6 4 1).total_candidates ≠ 0 ∧
      DashEffect.hideNoData ∈ loadDashboardRender false (Metrics.mk 10 6 4 1) ∧
      DashEffect.updateCards (Metrics.mk 10 6 4 1) ∈
        loadDashboardRender false (Metrics.mk 10 6 4 1) ∧
      (loadDashboardRender false (Metrics.mk 10 6 4 1)).countP isChartOrCard = 6) :=
  ⟨⟨rfl, (C7_dashboard_no_data false (Metrics.mk 0 0 0 0)).1 rfl⟩,
   ⟨by decide, (C7_dashboard_no_data false (Metrics.mk 10 6 4 1)).2 (by decide)⟩⟩

/-- C9: on every render, whether the gender chart is created or updated
in place, its dataset is female_count followed by male_count minus
female_count, so the two slices sum to male_count. -/
theorem C9_gender_chart_slices (chartExists : Bool) (d : Metrics) :
    (updateGenderChart chartExists d).slices =
      [d.female_count, d.male_count - d.female_count] ∧
    (updateGenderChart chartExists d).slices.sum = d.male_count := by
  cases chartExists <;>
    simp [updateGenderChart, GenderChartAction.slices, genderChartData]

/-- A program summary row as rendered by the programs table. Percentages
are rationals, since the backend may send decimals such as 69.9. -/
structure ProgramRow where
  name : String
  total_candidates : Int
  female_percent : ℚ
  female_count : Int
  pwd_percent : ℚ
  pwd_count : Int
  deriving DecidableEq

/-- `const femaleMet = program.female_percent >= 70;`
(src/static/js/programs.js line 58). -/
def femaleMet (p : ProgramRow) : Bool := p.female_percent ≥ 70

/-- `const pwdMet = program.pwd_percent >= 5;`
(src/static/js/programs.js line 62). -/
def pwdMet (p : ProgramRow) : Bool := p.pwd_percent ≥ 5

/-- The Female target indicator text of a row
(src/static/js/programs.js line 68). -/
def femaleIndicatorText (p : ProgramRow) : String :=
  if femaleMet p then "Met" else "Not Met"

/-- The PWD target indicator text of a row
(src/static/js/programs.js line 69). -/
def pwdIndicatorText (p : ProgramRow) : String :=
  if pwdMet p then "Met" else "Not Met"

/-- C8: the target indicators are a pure function of the percentages: the
Female indicator reads Met exactly when female_percent is at least 70,
and the PWD indicator reads Met exactly when pwd_percent is at least 5;
in particular 70 yields Met and 69.9 yields Not Met. -/
theorem C8_target_indicators (p : ProgramRow) :
    (femaleIndicatorText p = "Met" ↔ p.female_percent ≥ 70) ∧
    (pwdIndicatorText p = "Met" ↔ p.pwd_percent ≥ 5) ∧
    (p.female_percent = 70 → femaleIndicatorText p = "Met") ∧
    (p.female_percent = 699 / 10 → femaleIndicatorText p = "Not Met") := by
  refine ⟨?_, ?_, ?_, ?_⟩
  · by_cases h : p.female_percent ≥ 70 <;>
      simp [femaleIndicatorText, femaleMet, h]
  · by_cases h : p.pwd_percent ≥ 5 <;>
      simp [pwdIndicatorText, pwdMet, h]
  · intro h
    simp [femaleIndicatorText, femaleMet, h]
  · intro h
    have hlt : ¬ ((699 : ℚ) / 10 ≥ 70) := by norm_num
    simp [femaleIndicatorText, femaleMet, h, hlt]

/-- C8 witness: the theorem applied to rows with female_percent 70 and
69.9, hypotheses discharged by evaluation. -/
theorem C8_target_indicators_witness :
    ((ProgramRow.mk "Alpha" 10 70 7 5 1).female_percent = 70 ∧
      femaleIndicatorText (ProgramRow.mk "Alpha" 10 70 7 5 1) = "Met") ∧
    ((ProgramRow.mk "Beta" 10 (699 / 10) 7 5 1).female_percent = 699 / 10 ∧
      femaleIndicatorText (ProgramRow.mk "Beta" 10 (699 / 10) 7 5 1) = "Not Met") :=
  ⟨⟨rfl, (C8_target_indicators (ProgramRow.mk "Alpha" 10 70 7 5 1)).2.2.1 rfl⟩,
   ⟨rfl, (C8_target_indicators (ProgramRow.mk "Beta" 10 (699 / 10) 7 5 1)).2.2.2 rfl⟩⟩

/-- The JSON body of a POST to the start endpoint:
`\x7bjob_id, send, preview_only, filter_decisions?\x7d`. -/
structure StartBody where
  job_id : String
  send : Bool
  preview_only : Bool
  filter_decisions : Option (List String)
  deriving DecidableEq

/-- Outcome of the start request: thrown fetch, non-OK status carrying an
optional payload error, or OK with the returned job id. -/
inductive StartResponse where
  | transportError (errMessage : String)
  | httpError (payloadError : Option String)
  | ok (job_id : String)
  deriving DecidableEq

/-- Observable effects of `startJob`. -/
inductive StartEffect where
  | alertMsg (msg : String)
  | disableControls
  | post (body : StartBody)
  | showStatusCard
  | beginPolling (jobId : String)
  | logError
  deriving DecidableEq

/-- JavaScript falsiness of the module variable `currentJobId`: null
(modelled as none) and the empty string are falsy. -/
def strFalsy : Option String → Bool
  | none => true
  | some s => s = ""

/-- The `startJob` handler (src/unnamed/part_001 lines 60-86): when
currentJobId is falsy, alert and return; otherwise disable both buttons,
POST job_id, send = not previewOnly, preview_only = previewOnly and the
optional decision filter as a one-element list, then on OK show the
status card and start polling the returned job id, on a non-OK status
alert the payload error or a default, and on a thrown error log and
alert. -/
def startJob (currentJobId : Option String) (previewOnly : Bool)
    (filterVal : Option String) (resp : StartResponse) : List StartEffect :=
  if strFalsy currentJobId then
    [StartEffect.alertMsg "No job to start. Upload CSV first."]
  else
    StartEffect.disableControls ::
    StartEffect.post
      ⟨currentJobId.getD "", !previewOnly, previewOnly,
        filterVal.map (fun v => [v])⟩ ::
    match resp with
    | StartResponse.transportError m =>
        [StartEffect.logError, StartEffect.alertMsg ("Failed to start job: " ++ m)]
    | StartResponse.httpError pe =>
        [StartEffect.alertMsg (pe.getD "Failed to start job")]
    | StartResponse.ok jid =>
        [StartEffect.showStatusCard, StartEffect.beginPolling jid]

/-- C10: when no upload has completed in the session, so the current job
id is unset, startJob only alerts: it issues no POST, disables no
control, and starts no polling, whatever the button, filter and network
would have been. -/
theorem C10_start_without_job (previewOnly : Bool) (filterVal : Option String)
    (resp : StartResponse) :
    startJob none previewOnly filterVal resp =
      [StartEffect.alertMsg "No job to start. Upload CSV first."] ∧
    (∀ b, StartEffect.post b ∉ startJob none previewOnly filterVal resp) ∧
    StartEffect.disableControls ∉ startJob none previewOnly filterVal resp ∧
    (∀ j, StartEffect.beginPolling j ∉ startJob none previewOnly filterVal resp) := by
  refine ⟨?_, ?_, ?_, ?_⟩
  · simp [startJob, strFalsy]
  · intro b
    simp [startJob, strFalsy]
  · simp [startJob, strFalsy]
  · intro j
    simp [startJob, strFalsy]
